import Mathlib

/-
Verification development for the TUI file manager (src/src/main.py).

The subject of the claims is the navigation-and-mutation state machine of
FileManagerApp: the directory listing builder (refresh_table), the command
handlers (the callback closures of action_goto, action_new_file,
action_new_dir, action_rename, action_delete and the body of
action_paste_item), and the InputModal dialog.

Modelling conventions:
 - A filesystem path is a list of name components (FPath).  Python Path
   equality on absolute paths corresponds to list equality.
 - Python string operations (str.lower, str.strip, str.startswith,
   str.split, tuple-key comparison used by sorted) are embedded as
   structural functions over the character list String.data so that every
   definition evaluates inside the kernel.
 - The OS-level filesystem calls (Path.touch, Path.mkdir, Path.rename,
   shutil.move, shutil.copy2 / copytree, shutil.rmtree / Path.unlink,
   Path.iterdir) are outside the repository; they are modelled as atomic
   operations on a finite-map filesystem, at the call contract the spec
   assigns to the Filesystem Facade (ok or a classified failure, never a
   partial effect).  A raised Python exception is a returned error value.
 - Textual reactive watchers fire synchronously on assignment; the effect
   of watch_current_dir / watch_clipboard is inlined at every assignment
   of the corresponding reactive attribute.
-/

/- ────────────────── Python string primitives, structurally ────────────────── -/

/-- Embedding of Python str.lower (restricted to the alphabet handled by
Char.toLower, which covers the ASCII names used throughout). -/
def strLower (s : String) : String := String.mk (s.data.map Char.toLower)

/-- Embedding of Python s.startswith(pre). -/
def strStartsWith (s pre : String) : Bool := pre.data.isPrefixOf s.data

/-- Embedding of Python str.strip(): drop whitespace from both ends. -/
def strTrim (s : String) : String :=
  String.mk (((s.data.dropWhile Char.isWhitespace).reverse.dropWhile Char.isWhitespace).reverse)

/-- Code-point lexicographic comparison of character lists: the order Python
uses on str values, as needed by the tuple sort key of refresh_table. -/
def lexLe : List Char → List Char → Bool
  | [], _ => true
  | _ :: _, [] => false
  | a :: as, b :: bs => if a < b then true else if b < a then false else lexLe as bs

/-- Case-insensitive name comparison: the second component of the sort key
`p.name.lower()` of refresh_table (src/src/main.py:481). -/
def nameLe (a b : String) : Bool := lexLe (strLower a).data (strLower b).data

/- ────────────────── Paths ────────────────── -/

/-- An absolute filesystem path, as its list of components. -/
abbrev FPath := List String

/-- Python Path.name: the final component (the base name). -/
def pathName (p : FPath) : String := p.getLast?.getD ""

/-- Rendering of a path for status messages (str(Path) on an absolute path). -/
def pathString (p : FPath) : String := p.foldl (fun a c => a ++ "/" ++ c) ""

/-- Split a character list at '/' separators. -/
def splitOnSlash : List Char → List (List Char)
  | [] => [[]]
  | c :: rest =>
    match splitOnSlash rest with
    | [] => [[c]]
    | seg :: segs => if c = '/' then [] :: seg :: segs else (c :: seg) :: segs

/-- Parse a user-supplied path string into components (Python Path(s)):
empty segments, e.g. around the leading '/', are dropped. -/
def splitPath (s : String) : FPath :=
  ((splitOnSlash s.data).filter (fun seg => seg ≠ [])).map (fun seg => String.mk seg)

/-- Python Path(s).expanduser(): a leading '~' is replaced by the home
directory (src/src/main.py:563). -/
def expandUser (home : FPath) (s : String) : FPath :=
  if strStartsWith s ("~") then home ++ splitPath (String.mk s.data.tail) else splitPath s

/- ────────────────── Directory entries and the sort of refresh_table ────────────────── -/

/-- One enumerated child of the current directory, as refresh_table sees it:
its name, whether it is a directory, and the stat size (none when the entry
is a directory or the stat failed). -/
structure DirEntry where
  name : String
  isDir : Bool
  size : Option Nat
deriving DecidableEq

/-- The sort key comparison of refresh_table (src/src/main.py:479-482):
Python tuple order on (not p.is_dir(), p.name.lower()) — directories first,
then case-insensitive name. -/
def entryLe (a b : DirEntry) : Bool :=
  if a.isDir = b.isDir then nameLe a.name b.name else a.isDir

/-- Stable insertion used by sortLe. -/
def insertLe {α : Type} (le : α → α → Bool) (x : α) : List α → List α
  | [] => [x]
  | y :: ys => if le x y then x :: y :: ys else y :: insertLe le x ys

/-- Stable sort (embeds Python's stable sorted). -/
def sortLe {α : Type} (le : α → α → Bool) : List α → List α
  | [] => []
  | x :: xs => insertLe le x (sortLe le xs)

/-- The `sorted(self.current_dir.iterdir(), key=...)` step of refresh_table. -/
def sortEntries (es : List DirEntry) : List DirEntry := sortLe entryLe es

/-- The hidden-file filter of refresh_table (src/src/main.py:490): an entry is
kept iff show_hidden is set or its name does not start with '.'. -/
def visible (show_hidden : Bool) (e : DirEntry) : Bool :=
  show_hidden || !(strStartsWith e.name ("."))

/-- The listing builder: enumeration result to ordered, filtered row set
(src/src/main.py:479-501). -/
def build (show_hidden : Bool) (es : List DirEntry) : List DirEntry :=
  (sortEntries es).filter (visible show_hidden)

/- ────────────────── Enumeration outcomes and the core of refresh_table ────────────────── -/

/-- Classified failures of directory enumeration (Path.iterdir). -/
inductive EnumErr
  | permissionDenied
  | notFound
deriving DecidableEq

/-- Exception text used when a caught exception is interpolated into a
status message. -/
def enumErrText : EnumErr → String
  | EnumErr.permissionDenied => "Permission denied"
  | EnumErr.notFound => "No such file or directory"

/-- The success status line of refresh_table (src/src/main.py:503-504). -/
def countMsg (n : Nat) (cur : String) (show_hidden : Bool) : String :=
  toString n ++ " items in " ++ cur ++
    (if show_hidden then "" else "  (hidden files excluded)")

/-- Core of refresh_table (src/src/main.py:475-504) over an enumeration
outcome.  Returns the rows now displayed by the table (the table is cleared
first, so they are empty on any failure), the status update if one was made,
and the exception that escaped, if any: only PermissionError is caught
(line 483); any other enumeration failure propagates to the caller after the
table has been cleared and before any status is set. -/
def refresh_core (show_hidden : Bool) (cur : String)
    (enum : Except EnumErr (List DirEntry)) :
    List DirEntry × Option String × Option EnumErr :=
  match enum with
  | Except.error EnumErr.permissionDenied => ([], some ("⚠  Permission denied"), none)
  | Except.error e => ([], none, some e)
  | Except.ok es =>
    let l := build show_hidden es
    (l, some (countMsg l.length cur show_hidden), none)

/- ────────────────── The filesystem model ────────────────── -/

/-- One object of the host filesystem: its absolute path, whether it is a
directory, whether it can be enumerated (directories only), and its stat
size (files only). -/
structure FsNode where
  path : FPath
  isDir : Bool
  readable : Bool
  size : Nat
deriving DecidableEq

/-- A finite snapshot of the host filesystem. -/
structure Fs where
  nodes : List FsNode
deriving DecidableEq

def Fs.exists? (fs : Fs) (p : FPath) : Bool :=
  fs.nodes.any (fun n => decide (n.path = p))

def Fs.isDir? (fs : Fs) (p : FPath) : Bool :=
  fs.nodes.any (fun n => decide (n.path = p) && n.isDir)

def Fs.readable? (fs : Fs) (p : FPath) : Bool :=
  fs.nodes.any (fun n => decide (n.path = p) && n.readable)

/-- Classified failures of the mutating filesystem calls. -/
inductive FsErr
  | fileExists
  | ioError
deriving DecidableEq

/-- Exception text used when a caught exception is interpolated into a
status message. -/
def errText : FsErr → String
  | FsErr.fileExists => "File exists"
  | FsErr.ioError => "I/O error"

/-- The immediate children of directory p, as DirEntry rows
(Path.iterdir at the facade contract). -/
def childEntry (p : FPath) (n : FsNode) : Option DirEntry :=
  match n.path.getLast? with
  | none => none
  | some nm =>
    if n.path = p ++ [nm] then
      some { name := nm, isDir := n.isDir,
             size := if n.isDir then none else some n.size }
    else none

def Fs.childEntries (fs : Fs) (p : FPath) : List DirEntry :=
  fs.nodes.filterMap (childEntry p)

/-- Enumerate a directory (Path.iterdir): FileNotFoundError when p is not an
existing directory, PermissionError when it is not readable. -/
def Fs.enumerate (fs : Fs) (p : FPath) : Except EnumErr (List DirEntry) :=
  if fs.isDir? p = true then
    if fs.readable? p = true then Except.ok (fs.childEntries p)
    else Except.error EnumErr.permissionDenied
  else Except.error EnumErr.notFound

/-- Move the subtree rooted at src so that it is rooted at dst. -/
def rebaseNode (src dst : FPath) (n : FsNode) : FsNode :=
  if src.isPrefixOf n.path then { n with path := dst ++ n.path.drop src.length } else n

/-- Path.touch(exist_ok=False) at the facade contract: FileExistsError when
the target exists, IOError when the parent is not an existing directory;
otherwise the file is created (src/src/main.py:576). -/
def fsTouch (fs : Fs) (p : FPath) : Except FsErr Fs :=
  if fs.exists? p = true then Except.error FsErr.fileExists
  else if fs.isDir? p.dropLast = true then
    Except.ok ⟨fs.nodes ++ [⟨p, false, true, 0⟩]⟩
  else Except.error FsErr.ioError

/-- Path.mkdir(parents=False, exist_ok=False) at the facade contract
(src/src/main.py:591). -/
def fsMkdir (fs : Fs) (p : FPath) : Except FsErr Fs :=
  if fs.exists? p = true then Except.error FsErr.fileExists
  else if fs.isDir? p.dropLast = true then
    Except.ok ⟨fs.nodes ++ [⟨p, true, true, 0⟩]⟩
  else Except.error FsErr.ioError

/-- Path.rename at the facade contract: the source (with its subtree) is
re-rooted at dst; failure when the source is missing or the destination is
already present (src/src/main.py:611). -/
def fsRename (fs : Fs) (src dst : FPath) : Except FsErr Fs :=
  if fs.exists? src = true then
    if fs.exists? dst = true then Except.error FsErr.ioError
    else Except.ok ⟨fs.nodes.map (rebaseNode src dst)⟩
  else Except.error FsErr.ioError

/-- shutil.move at the facade contract of the spec (same atomic move as
rename) (src/src/main.py:661). -/
def fsMove (fs : Fs) (src dst : FPath) : Except FsErr Fs := fsRename fs src dst

/-- shutil.copytree / shutil.copy2 at the facade contract: for a directory
source the whole subtree is duplicated at dst (failing when dst exists, as
copytree does); for a file source the file is written at dst (overwriting a
plain file, as copy2 does) (src/src/main.py:665-668). -/
def fsCopy (fs : Fs) (src dst : FPath) : Except FsErr Fs :=
  if fs.exists? src = true then
    if fs.isDir? src = true then
      if fs.exists? dst = true then Except.error FsErr.fileExists
      else Except.ok ⟨fs.nodes ++
        (fs.nodes.filter (fun n => src.isPrefixOf n.path)).map
          (fun n => { n with path := dst ++ n.path.drop src.length })⟩
    else
      if fs.isDir? dst = true then Except.error FsErr.ioError
      else Except.ok ⟨fs.nodes.filter (fun n => !(decide (n.path = dst))) ++
        (fs.nodes.filter (fun n => decide (n.path = src))).map
          (fun n => { n with path := dst })⟩
  else Except.error FsErr.ioError

/-- shutil.rmtree / Path.unlink at the facade contract
(src/src/main.py:628-631). -/
def fsDelete (fs : Fs) (p : FPath) : Except FsErr Fs :=
  if fs.exists? p = true then
    if fs.isDir? p = true then
      Except.ok ⟨fs.nodes.filter (fun n => !(p.isPrefixOf n.path))⟩
    else Except.ok ⟨fs.nodes.filter (fun n => !(decide (n.path = p)))⟩
  else Except.error FsErr.ioError

/- ────────────────── Application state and the dialog layer ────────────────── -/

/-- The clipboard operation kind (reactive clipboard_op, "copy" or "cut"). -/
inductive ClipOp
  | copy
  | cut
deriving DecidableEq

/-- The state of FileManagerApp that the claims speak about: the reactive
attributes current_dir, show_hidden, clipboard, clipboard_op, the rows the
DataTable displays, and the StatusBar message. -/
structure AppState where
  current_dir : FPath
  show_hidden : Bool
  clipboard : Option FPath
  clipboard_op : ClipOp
  listing : List DirEntry
  status : String
deriving DecidableEq

/-- self.set_status(msg) (src/src/main.py:472). -/
def set_status (st : AppState) (msg : String) : AppState := { st with status := msg }

/-- InputModal OK / Input.Submitted: the raw input value is stripped of
surrounding whitespace and dismissed (src/src/main.py:114-117). -/
def InputModal.confirm (raw : String) : Option String := some (strTrim raw)

/-- InputModal Cancel: dismissed with None (src/src/main.py:119-121). -/
def InputModal.cancel : Option String := none

/- ────────────────── refresh_table on the application state ────────────────── -/

/-- self.refresh_table() (src/src/main.py:475-504): clears the table, then
enumerates current_dir; on PermissionError it sets the warning status and
returns; any other enumeration exception escapes (second component).  On
success the new rows and the count status are installed. -/
def refresh_table (fs : Fs) (st : AppState) : AppState × Option EnumErr :=
  let r := refresh_core st.show_hidden (pathString st.current_dir) (fs.enumerate st.current_dir)
  ({ st with listing := r.1, status := (r.2.1).getD st.status }, r.2.2)

/- ────────────────── Command handlers ────────────────── -/

/-- Handler closure of action_goto (src/src/main.py:560-569): a falsy result
(cancel, or the empty string) does nothing; otherwise the expanded path is
accepted iff it is an existing directory, in which case assigning
current_dir fires watch_current_dir which runs refresh_table; a
non-directory only produces the warning status.  The second component is an
exception escaping from the watcher. -/
def action_goto_handle (home : FPath) (fs : Fs) (st : AppState)
    (result : Option String) : AppState × Option EnumErr :=
  match result with
  | none => (st, none)
  | some s =>
    if s = "" then (st, none)
    else
      let p := expandUser home s
      if fs.isDir? p = true then refresh_table fs { st with current_dir := p }
      else (set_status st (("⚠  Not a directory: ") ++ s), none)

/-- Failure status of the new-file handler (src/src/main.py:579-582). -/
def newFileFailMsg (e : FsErr) (s : String) : String :=
  match e with
  | FsErr.fileExists => ("⚠  File already exists: ") ++ s
  | FsErr.ioError => ("⚠  Error: ") ++ errText FsErr.ioError

/-- Handler closure of action_new_file (src/src/main.py:571-584): on a truthy
result, touch the target; on success refresh and report; FileExistsError and
any other exception (including one raised by the refresh) map to a warning
status. -/
def action_new_file_handle (fs : Fs) (st : AppState) (result : Option String) :
    Fs × AppState :=
  match result with
  | none => (fs, st)
  | some s =>
    if s = "" then (fs, st)
    else
      match fsTouch fs (st.current_dir ++ [s]) with
      | Except.ok fs2 =>
        let r := refresh_table fs2 st
        match r.2 with
        | none => (fs2, set_status r.1 (("✔  Created file: ") ++ s))
        | some e => (fs2, set_status r.1 (("⚠  Error: ") ++ enumErrText e))
      | Except.error e => (fs, set_status st (newFileFailMsg e s))

/-- Failure status of the new-directory handler (src/src/main.py:594-597). -/
def newDirFailMsg (e : FsErr) (s : String) : String :=
  match e with
  | FsErr.fileExists => ("⚠  Directory already exists: ") ++ s
  | FsErr.ioError => ("⚠  Error: ") ++ errText FsErr.ioError

/-- Handler closure of action_new_dir (src/src/main.py:586-599). -/
def action_new_dir_handle (fs : Fs) (st : AppState) (result : Option String) :
    Fs × AppState :=
  match result with
  | none => (fs, st)
  | some s =>
    if s = "" then (fs, st)
    else
      match fsMkdir fs (st.current_dir ++ [s]) with
      | Except.ok fs2 =>
        let r := refresh_table fs2 st
        match r.2 with
        | none => (fs2, set_status r.1 (("✔  Created directory: ") ++ s))
        | some e => (fs2, set_status r.1 (("⚠  Error: ") ++ enumErrText e))
      | Except.error e => (fs, set_status st (newDirFailMsg e s))

/-- Handler closure of action_rename (src/src/main.py:601-617): only a truthy
result different from the entry's current name does anything; then the entry
is renamed into the current directory, followed by refresh and a status. -/
def action_rename_handle (fs : Fs) (st : AppState) (entry : FPath)
    (result : Option String) : Fs × AppState :=
  match result with
  | none => (fs, st)
  | some s =>
    if s ≠ "" ∧ s ≠ pathName entry then
      match fsRename fs entry (st.current_dir ++ [s]) with
      | Except.ok fs2 =>
        let r := refresh_table fs2 st
        match r.2 with
        | none => (fs2, set_status r.1 (("✔  Renamed to: ") ++ s))
        | some e => (fs2, set_status r.1 (("⚠  Error: ") ++ enumErrText e))
      | Except.error e => (fs, set_status st (("⚠  Error: ") ++ errText e))
    else (fs, st)

/-- Handler closure of action_delete (src/src/main.py:619-640): without
affirmative confirmation nothing happens; with it, the selected entry is
deleted (rmtree for a directory, unlink otherwise), then refresh and a
status. -/
def action_delete_handle (fs : Fs) (st : AppState) (entry : FPath)
    (confirmed : Bool) : Fs × AppState :=
  if confirmed then
    match fsDelete fs entry with
    | Except.ok fs2 =>
      let r := refresh_table fs2 st
      match r.2 with
      | none => (fs2, set_status r.1 (("✔  Deleted: ") ++ pathName entry))
      | some e => (fs2, set_status r.1 (("⚠  Error: ") ++ enumErrText e))
    | Except.error e => (fs, set_status st (("⚠  Error: ") ++ errText e))
  else (fs, st)

/-- action_paste_item (src/src/main.py:650-672): an empty clipboard or a
destination identical to the source is rejected before any filesystem call;
a cut pastes via move and clears the clipboard (the clipboard watcher first
blanks the status), a copy pastes via copytree / copy2 and keeps the
clipboard; then refresh_table runs, and any exception of the try block maps
to a warning status. -/
def action_paste_item (fs : Fs) (st : AppState) : Fs × AppState :=
  match st.clipboard with
  | none => (fs, set_status st ("⚠  Clipboard is empty. Use [C] to copy first."))
  | some src =>
    let dst := st.current_dir ++ [pathName src]
    if dst = src then (fs, set_status st ("⚠  Source and destination are the same."))
    else
      match st.clipboard_op with
      | ClipOp.cut =>
        match fsMove fs src dst with
        | Except.ok fs2 =>
          let st1 := set_status { st with clipboard := none } ("")
          let st2 := set_status st1 (("✔  Moved: ") ++ pathName src)
          let r := refresh_table fs2 st2
          match r.2 with
          | none => (fs2, r.1)
          | some e => (fs2, set_status r.1 (("⚠  Error: ") ++ enumErrText e))
        | Except.error e => (fs, set_status st (("⚠  Error: ") ++ errText e))
      | ClipOp.copy =>
        match fsCopy fs src dst with
        | Except.ok fs2 =>
          let st2 := set_status st (("✔  Copied: ") ++ pathName src)
          let r := refresh_table fs2 st2
          match r.2 with
          | none => (fs2, r.1)
          | some e => (fs2, set_status r.1 (("⚠  Error: ") ++ enumErrText e))
        | Except.error e => (fs, set_status st (("⚠  Error: ") ++ errText e))

/-- Pressing paste n times in a row (the filesystem threads through). -/
def pasteSeq : Nat → Fs → AppState → Fs × AppState
  | 0, fs, st => (fs, st)
  | Nat.succ n, fs, st =>
    let r := action_paste_item fs st
    pasteSeq n r.1 r.2

/- ────────────────── Order lemmas for the sort ────────────────── -/

theorem lexLe_total : ∀ (as bs : List Char), lexLe as bs = true ∨ lexLe bs as = true := by
  intro as
  induction as with
  | nil => intro bs; left; rfl
  | cons a as ih =>
    intro bs
    cases bs with
    | nil => right; rfl
    | cons b bs =>
      simp only [lexLe]
      rcases lt_trichotomy a b with h | h | h
      · left; rw [if_pos h]
      · subst h
        have hnn : ¬ a < a := lt_irrefl a
        simp only [if_neg hnn]
        exact ih bs
      · right; rw [if_pos h]

theorem lexLe_trans :
    ∀ (as bs cs : List Char), lexLe as bs = true → lexLe bs cs = true → lexLe as cs = true := by
  intro as
  induction as with
  | nil => intro bs cs _ _; rfl
  | cons a as ih =>
    intro bs cs h1 h2
    cases bs with
    | nil => simp [lexLe] at h1
    | cons b bs =>
      cases cs with
      | nil => simp [lexLe] at h2
      | cons c cs =>
        simp only [lexLe] at h1 h2 ⊢
        rcases lt_trichotomy a b with hab | hab | hab
        · rcases lt_trichotomy b c with hbc | hbc | hbc
          · rw [if_pos (lt_trans hab hbc)]
          · subst hbc; rw [if_pos hab]
          · rw [if_neg (lt_asymm hbc), if_pos hbc] at h2
            exact absurd h2 (by simp)
        · subst hab
          have hnn : ¬ a < a := lt_irrefl a
          rw [if_neg hnn, if_neg hnn] at h1
          rcases lt_trichotomy a c with hac | hac | hac
          · rw [if_pos hac]
          · subst hac
            rw [if_neg hnn, if_neg hnn] at h2 ⊢
            exact ih bs cs h1 h2
          · rw [if_neg (lt_asymm hac), if_pos hac] at h2
            exact absurd h2 (by simp)
        · rw [if_neg (lt_asymm hab), if_pos hab] at h1
          exact absurd h1 (by simp)

theorem nameLe_total (a b : String) : nameLe a b = true ∨ nameLe b a = true :=
  lexLe_total (strLower a).data (strLower b).data

theorem nameLe_trans (a b c : String) :
    nameLe a b = true → nameLe b c = true → nameLe a c = true :=
  lexLe_trans (strLower a).data (strLower b).data (strLower c).data

theorem entryLe_total (a b : DirEntry) : entryLe a b = true ∨ entryLe b a = true := by
  unfold entryLe
  cases ha : a.isDir <;> cases hb : b.isDir <;> simp [ha, hb] <;> exact nameLe_total _ _

theorem entryLe_trans (a b c : DirEntry) :
    entryLe a b = true → entryLe b c = true → entryLe a c = true := by
  intro h1 h2
  unfold entryLe at h1 h2 ⊢
  cases ha : a.isDir <;> cases hb : b.isDir <;> cases hc : c.isDir <;>
    simp [ha, hb, hc] at h1 h2 ⊢ <;>
    exact nameLe_trans _ _ _ h1 h2

theorem mem_insertLe {α : Type} (le : α → α → Bool) (x y : α) :
    ∀ (l : List α), y ∈ insertLe le x l ↔ y = x ∨ y ∈ l := by
  intro l
  induction l with
  | nil => simp [insertLe]
  | cons z zs ih =>
    by_cases h : le x z = true
    · simp [insertLe, h, List.mem_cons]
    · simp only [insertLe, if_neg h, List.mem_cons, ih]
      tauto

theorem mem_sortLe {α : Type} (le : α → α → Bool) (y : α) :
    ∀ (l : List α), y ∈ sortLe le l ↔ y ∈ l := by
  intro l
  induction l with
  | nil => simp [sortLe]
  | cons x xs ih =>
    simp only [sortLe, mem_insertLe, ih, List.mem_cons]

theorem pairwise_insertLe {α : Type} (le : α → α → Bool)
    (htr : ∀ a b c, le a b = true → le b c = true → le a c = true)
    (hto : ∀ a b, le a b = true ∨ le b a = true)
    (x : α) : ∀ (l : List α), l.Pairwise (fun a b => le a b = true) →
    (insertLe le x l).Pairwise (fun a b => le a b = true) := by
  intro l
  induction l with
  | nil => intro _; simp [insertLe]
  | cons y ys ih =>
    intro h
    rcases List.pairwise_cons.mp h with ⟨hy, hys⟩
    by_cases hxy : le x y = true
    · simp only [insertLe, if_pos hxy]
      refine List.pairwise_cons.mpr ⟨?_, h⟩
      intro b hb
      rcases List.mem_cons.mp hb with rfl | hb
      · exact hxy
      · exact htr x y b hxy (hy b hb)
    · have hyx : le y x = true := (hto x y).resolve_left hxy
      simp only [insertLe, if_neg hxy]
      refine List.pairwise_cons.mpr ⟨?_, ih hys⟩
      intro b hb
      rcases (mem_insertLe le x b ys).mp hb with rfl | hb
      · exact hyx
      · exact hy b hb

theorem pairwise_sortLe {α : Type} (le : α → α → Bool)
    (htr : ∀ a b c, le a b = true → le b c = true → le a c = true)
    (hto : ∀ a b, le a b = true ∨ le b a = true) :
    ∀ (l : List α), (sortLe le l).Pairwise (fun a b => le a b = true) := by
  intro l
  induction l with
  | nil => simp [sortLe]
  | cons x xs ih => exact pairwise_insertLe le htr hto x (sortLe le xs) ih

theorem pairwise_sortEntries (es : List DirEntry) :
    (sortEntries es).Pairwise (fun a b => entryLe a b = true) :=
  pairwise_sortLe entryLe entryLe_trans entryLe_total es

/- ────────────────── Misc helper lemmas ────────────────── -/

theorem entryLe_imp {a b : DirEntry} (h : entryLe a b = true) :
    (a.isDir = false → b.isDir = false) ∧
    (a.isDir = b.isDir → nameLe a.name b.name = true) := by
  unfold entryLe at h
  by_cases hd : a.isDir = b.isDir
  · rw [if_pos hd] at h
    exact ⟨fun ha => hd ▸ ha, fun _ => h⟩
  · rw [if_neg hd] at h
    constructor
    · intro ha; rw [ha] at h; exact absurd h (by simp)
    · intro hd2; exact absurd hd2 hd

theorem refresh_table_fields (fs : Fs) (st : AppState) :
    (refresh_table fs st).1.current_dir = st.current_dir ∧
    (refresh_table fs st).1.show_hidden = st.show_hidden ∧
    (refresh_table fs st).1.clipboard = st.clipboard ∧
    (refresh_table fs st).1.clipboard_op = st.clipboard_op :=
  ⟨rfl, rfl, rfl, rfl⟩

/- ────────────────── Claim C1 ────────────────── -/

/-- C1, counterexample: the claim says no enumeration failure ever propagates
an exception past the listing builder; but for a NotFound enumeration
failure refresh_table catches nothing (only PermissionError is caught), so
the exception escapes (third component not none). -/
theorem c1_counterexample :
    (refresh_core false ("/x") (Except.error EnumErr.notFound)).2.2 ≠ none := by
  decide

/-- C1, amended: on a PermissionDenied enumeration failure the listing
builder yields the empty row set plus the fixed warning status and lets no
exception escape; on a NotFound enumeration failure it yields the cleared
(empty) row set, sets no status, and propagates the exception to its
caller. -/
theorem c1_enumeration_failure : ∀ (sh : Bool) (cur : String),
    refresh_core sh cur (Except.error EnumErr.permissionDenied)
      = ([], some ("⚠  Permission denied"), none) ∧
    refresh_core sh cur (Except.error EnumErr.notFound)
      = ([], none, some EnumErr.notFound) := by
  intro sh cur
  exact ⟨rfl, rfl⟩

/- ────────────────── Claim C6 ────────────────── -/

/-- C6: in every listing the builder produces, every directory entry sorts
before every file entry (once a file appears, everything after is a file),
and entries of the same kind are in case-insensitive ascending name order. -/
theorem c6_listing_order : ∀ (sh : Bool) (cur : String)
    (enum : Except EnumErr (List DirEntry)),
    (refresh_core sh cur enum).1.Pairwise (fun a b =>
      (a.isDir = false → b.isDir = false) ∧
      (a.isDir = b.isDir → nameLe a.name b.name = true)) := by
  intro sh cur enum
  match enum with
  | Except.error EnumErr.permissionDenied => simp [refresh_core]
  | Except.error EnumErr.notFound => simp [refresh_core]
  | Except.ok es =>
    show (build sh es).Pairwise _
    have h1 : (build sh es).Pairwise (fun a b => entryLe a b = true) :=
      List.Pairwise.filter _ (pairwise_sortEntries es)
    exact h1.imp (fun h => entryLe_imp h)

/-- C6, witness: the order property evaluated on a concrete enumeration. -/
theorem c6_witness :
    (refresh_core false ("/x")
        (Except.ok [⟨"a", false, some 3⟩, ⟨"B", true, none⟩])).1.Pairwise
      (fun a b =>
        (a.isDir = false → b.isDir = false) ∧
        (a.isDir = b.isDir → nameLe a.name b.name = true)) :=
  c6_listing_order false ("/x") (Except.ok [⟨"a", false, some 3⟩, ⟨"B", true, none⟩])

/- ────────────────── Claim C7 ────────────────── -/

/-- C7: building without hidden files excludes exactly the entries whose
name starts with the hidden marker '.', building with them includes every
entry, and the hidden-free listing is the hidden-inclusive listing with the
hidden entries filtered out — so shared entries agree on order and on every
field. -/
theorem c7_hidden_filter : ∀ (es : List DirEntry),
    (∀ e, e ∈ build false es ↔ e ∈ es ∧ strStartsWith e.name (".") = false) ∧
    (∀ e, e ∈ build true es ↔ e ∈ es) ∧
    build false es = (build true es).filter (fun e => !(strStartsWith e.name ("."))) := by
  intro es
  have hvis : visible false = fun e => !(strStartsWith e.name (".")) :=
    funext fun e => rfl
  have htrue : build true es = sortEntries es := by
    simp [build, visible]
  refine ⟨?_, ?_, ?_⟩
  · intro e
    rw [build, hvis, List.mem_filter, sortEntries, mem_sortLe]
    simp
  · intro e
    rw [htrue]
    exact mem_sortLe entryLe e es
  · rw [htrue, build, hvis]

/-- C7, witness: the filter equation evaluated on a concrete enumeration. -/
theorem c7_witness :
    build false [⟨".h", false, some 1⟩, ⟨"a", false, some 3⟩, ⟨"B", true, none⟩]
      = (build true [⟨".h", false, some 1⟩, ⟨"a", false, some 3⟩, ⟨"B", true, none⟩]).filter
          (fun e => !(strStartsWith e.name ("."))) :=
  (c7_hidden_filter [⟨".h", false, some 1⟩, ⟨"a", false, some 3⟩, ⟨"B", true, none⟩]).2.2

/- ────────────────── Concrete fixtures used by witnesses ────────────────── -/

/-- A small filesystem: readable root containing file a and directory d. -/
def fs0 : Fs := ⟨[⟨[], true, true, 0⟩, ⟨["a"], false, true, 5⟩, ⟨["d"], true, true, 0⟩]⟩

/-- A state at the root with an idle clipboard. -/
def st0 : AppState := ⟨[], false, none, ClipOp.copy, [], ("")⟩

/- ────────────────── Claim C8 ────────────────── -/

/-- C8: the rename handler is a silent no-op — no filesystem call, no state
change at all — when the dialog was cancelled, or when the submitted name is
empty or equal (case-sensitively) to the entry's current name. -/
theorem c8_rename_noop : ∀ (fs : Fs) (st : AppState) (entry : FPath) (s : String),
    action_rename_handle fs st entry none = (fs, st) ∧
    (s = "" ∨ s = pathName entry →
      action_rename_handle fs st entry (some s) = (fs, st)) := by
  intro fs st entry s
  refine ⟨rfl, ?_⟩
  intro h
  have hcond : ¬ (s ≠ "" ∧ s ≠ pathName entry) := by
    rcases h with h | h
    · intro hc; exact hc.1 h
    · intro hc; exact hc.2 h
  simp only [action_rename_handle, if_neg hcond]

/-- C8, witness: renaming a/b to the empty name and to its own name b are
both exact no-ops. -/
theorem c8_witness :
    action_rename_handle fs0 st0 ["a", "b"] (some ("")) = (fs0, st0) ∧
    action_rename_handle fs0 st0 ["a", "b"] (some ("b")) = (fs0, st0) :=
  ⟨(c8_rename_noop fs0 st0 ["a", "b"] ("")).2 (Or.inl rfl),
   (c8_rename_noop fs0 st0 ["a", "b"] ("b")).2 (Or.inr rfl)⟩

/- ────────────────── Claim C9 ────────────────── -/

theorem strTrim_of_whitespace (s : String) (h : ∀ c ∈ s.data, c.isWhitespace = true) :
    strTrim s = ("") := by
  unfold strTrim
  have h1 : s.data.dropWhile Char.isWhitespace = [] :=
    List.dropWhile_eq_nil_iff.mpr h
  rw [h1]
  rfl

/-- C9: every string submitted through the input dialog reaches the handler
stripped of surrounding whitespace; a whitespace-only input is delivered as
the empty string, and on it the new-file, new-directory, rename and
go-to-path handlers do exactly what they do on a cancellation: nothing. -/
theorem c9_whitespace_input : ∀ (raw : String) (home : FPath) (fs : Fs)
    (st : AppState) (entry : FPath),
    InputModal.confirm raw = some (strTrim raw) ∧
    ((∀ c ∈ raw.data, c.isWhitespace = true) →
      InputModal.confirm raw = some ("") ∧
      action_new_file_handle fs st (InputModal.confirm raw) = (fs, st) ∧
      action_new_file_handle fs st InputModal.cancel = (fs, st) ∧
      action_new_dir_handle fs st (InputModal.confirm raw) = (fs, st) ∧
      action_new_dir_handle fs st InputModal.cancel = (fs, st) ∧
      action_rename_handle fs st entry (InputModal.confirm raw) = (fs, st) ∧
      action_rename_handle fs st entry InputModal.cancel = (fs, st) ∧
      action_goto_handle home fs st (InputModal.confirm raw) = (st, none) ∧
      action_goto_handle home fs st InputModal.cancel = (st, none)) := by
  intro raw home fs st entry
  refine ⟨rfl, ?_⟩
  intro hw
  have hc : InputModal.confirm raw = some ("") := by
    rw [InputModal.confirm, strTrim_of_whitespace raw hw]
  rw [hc]
  refine ⟨rfl, ?_, rfl, ?_, rfl, ?_, rfl, ?_, rfl⟩
  · simp [action_new_file_handle]
  · simp [action_new_dir_handle]
  · simp [action_rename_handle]
  · simp [action_goto_handle]

/-- C9, witness: the whitespace-only input "  " behaves like Cancel on every
text-input command. -/
theorem c9_witness :
    InputModal.confirm ("  ") = some ("") ∧
    action_new_file_handle fs0 st0 (InputModal.confirm ("  ")) = (fs0, st0) ∧
    action_new_file_handle fs0 st0 InputModal.cancel = (fs0, st0) ∧
    action_new_dir_handle fs0 st0 (InputModal.confirm ("  ")) = (fs0, st0) ∧
    action_new_dir_handle fs0 st0 InputModal.cancel = (fs0, st0) ∧
    action_rename_handle fs0 st0 ["a"] (InputModal.confirm ("  ")) = (fs0, st0) ∧
    action_rename_handle fs0 st0 ["a"] InputModal.cancel = (fs0, st0) ∧
    action_goto_handle [] fs0 st0 (InputModal.confirm ("  ")) = (st0, none) ∧
    action_goto_handle [] fs0 st0 InputModal.cancel = (st0, none) :=
  (c9_whitespace_input ("  ") [] fs0 st0 ["a"]).2 (by decide)

/- ────────────────── Claim C2 ────────────────── -/

/-- C2: whenever the filesystem call underlying a mutating command fails,
the command leaves the filesystem, the navigation state (current_dir,
show_hidden), the clipboard state and the displayed listing exactly as they
were, and only sets a failure status message — commands never partially
mutate state. -/
theorem c2_failure_atomicity :
    (∀ (fs : Fs) (st : AppState) (s : String) (e : FsErr), s ≠ "" →
       fsTouch fs (st.current_dir ++ [s]) = Except.error e →
       action_new_file_handle fs st (some s) = (fs, set_status st (newFileFailMsg e s))) ∧
    (∀ (fs : Fs) (st : AppState) (s : String) (e : FsErr), s ≠ "" →
       fsMkdir fs (st.current_dir ++ [s]) = Except.error e →
       action_new_dir_handle fs st (some s) = (fs, set_status st (newDirFailMsg e s))) ∧
    (∀ (fs : Fs) (st : AppState) (entry : FPath) (s : String) (e : FsErr),
       s ≠ "" → s ≠ pathName entry →
       fsRename fs entry (st.current_dir ++ [s]) = Except.error e →
       action_rename_handle fs st entry (some s)
         = (fs, set_status st (("⚠  Error: ") ++ errText e))) ∧
    (∀ (fs : Fs) (st : AppState) (entry : FPath) (e : FsErr),
       fsDelete fs entry = Except.error e →
       action_delete_handle fs st entry true
         = (fs, set_status st (("⚠  Error: ") ++ errText e))) ∧
    (∀ (fs : Fs) (st : AppState) (src : FPath) (e : FsErr),
       st.clipboard = some src → st.clipboard_op = ClipOp.cut →
       st.current_dir ++ [pathName src] ≠ src →
       fsMove fs src (st.current_dir ++ [pathName src]) = Except.error e →
       action_paste_item fs st = (fs, set_status st (("⚠  Error: ") ++ errText e))) ∧
    (∀ (fs : Fs) (st : AppState) (src : FPath) (e : FsErr),
       st.clipboard = some src → st.clipboard_op = ClipOp.copy →
       st.current_dir ++ [pathName src] ≠ src →
       fsCopy fs src (st.current_dir ++ [pathName src]) = Except.error e →
       action_paste_item fs st = (fs, set_status st (("⚠  Error: ") ++ errText e))) := by
  refine ⟨?_, ?_, ?_, ?_, ?_, ?_⟩
  · intro fs st s e hs hf
    simp only [action_new_file_handle, if_neg hs, hf]
  · intro fs st s e hs hf
    simp only [action_new_dir_handle, if_neg hs, hf]
  · intro fs st entry s e hs hname hf
    simp only [action_rename_handle, if_pos (And.intro hs hname), hf]
  · intro fs st entry e hf
    simp [action_delete_handle, hf]
  · intro fs st src e hclip hop hne hf
    simp only [action_paste_item, hclip, hop, if_neg hne, hf]
  · intro fs st src e hclip hop hne hf
    simp only [action_paste_item, hclip, hop, if_neg hne, hf]

/-- A cut clipboard pointing at q/z, for the failure witnesses. -/
def stCut2 : AppState := ⟨[], false, some ["q", "z"], ClipOp.cut, [], ("")⟩

/-- A copy clipboard pointing at q/z, for the failure witnesses. -/
def stCopy2 : AppState := ⟨[], false, some ["q", "z"], ClipOp.copy, [], ("")⟩

/-- C2, witness: every mutating command evaluated at a concretely failing
filesystem call returns the unchanged filesystem and the unchanged state
with only a failure status. -/
theorem c2_witness :
    action_new_file_handle fs0 st0 (some ("a"))
      = (fs0, set_status st0 (newFileFailMsg FsErr.fileExists ("a"))) ∧
    action_new_dir_handle fs0 st0 (some ("a"))
      = (fs0, set_status st0 (newDirFailMsg FsErr.fileExists ("a"))) ∧
    action_rename_handle fs0 st0 ["z"] (some ("b"))
      = (fs0, set_status st0 (("⚠  Error: ") ++ errText FsErr.ioError)) ∧
    action_delete_handle fs0 st0 ["z"] true
      = (fs0, set_status st0 (("⚠  Error: ") ++ errText FsErr.ioError)) ∧
    action_paste_item fs0 stCut2
      = (fs0, set_status stCut2 (("⚠  Error: ") ++ errText FsErr.ioError)) ∧
    action_paste_item fs0 stCopy2
      = (fs0, set_status stCopy2 (("⚠  Error: ") ++ errText FsErr.ioError)) :=
  ⟨c2_failure_atomicity.1 fs0 st0 ("a") FsErr.fileExists (by decide) rfl,
   c2_failure_atomicity.2.1 fs0 st0 ("a") FsErr.fileExists (by decide) rfl,
   c2_failure_atomicity.2.2.1 fs0 st0 ["z"] ("b") FsErr.ioError (by decide) (by decide) rfl,
   c2_failure_atomicity.2.2.2.1 fs0 st0 ["z"] FsErr.ioError rfl,
   c2_failure_atomicity.2.2.2.2.1 fs0 stCut2 ["q", "z"] FsErr.ioError rfl rfl (by decide) rfl,
   c2_failure_atomicity.2.2.2.2.2 fs0 stCopy2 ["q", "z"] FsErr.ioError rfl rfl (by decide) rfl⟩

/- ────────────────── Claim C3 ────────────────── -/

/-- A filesystem with a readable directory u containing the unreadable
directory u/s. -/
def c3fs : Fs := ⟨[⟨["u"], true, true, 0⟩, ⟨["u", "s"], true, false, 0⟩]⟩

/-- A state currently in directory u. -/
def c3st : AppState := ⟨["u"], false, none, ClipOp.copy, [], ("")⟩

/-- C3, counterexample: the claim says a transition to an unreadable path is
rejected with current_dir unchanged; but action_goto only checks is_dir, so
navigating to the existing-but-unreadable directory u/s is accepted and
current_dir does change. -/
theorem c3_counterexample :
    c3fs.isDir? ["u", "s"] = true ∧
    c3fs.readable? ["u", "s"] = false ∧
    (action_goto_handle [] c3fs c3st (some ("/u/s"))).1.current_dir = ["u", "s"] ∧
    c3st.current_dir = ["u"] := by
  decide

/-- C3, amended: a go-to path that does not resolve to an existing directory
is rejected — state unchanged except for the "not a directory" status; a
path resolving to an existing directory is accepted even when it is
unreadable: current_dir is set to it, and for an unreadable directory the
listing rebuild then yields an empty listing with the permission warning. -/
theorem c3_goto_validation : ∀ (home : FPath) (fs : Fs) (st : AppState) (s : String),
    s ≠ "" →
    (fs.isDir? (expandUser home s) = false →
       action_goto_handle home fs st (some s)
         = (set_status st (("⚠  Not a directory: ") ++ s), none)) ∧
    (fs.isDir? (expandUser home s) = true →
       (action_goto_handle home fs st (some s)).1.current_dir = expandUser home s ∧
       (fs.readable? (expandUser home s) = false →
          action_goto_handle home fs st (some s)
            = ({ st with
                  current_dir := expandUser home s
                  listing := []
                  status := ("⚠  Permission denied") }, none))) := by
  intro home fs st s hs
  constructor
  · intro hdir
    simp [action_goto_handle, hs, hdir]
  · intro hdir
    constructor
    · simp [action_goto_handle, hs, hdir]
      rfl
    · intro hr
      simp [action_goto_handle, hs, hdir, refresh_table, Fs.enumerate, hr, refresh_core]

/-- C3, witness: a non-directory go-to target is rejected with the warning
status, and the unreadable directory u/s is entered with an empty listing
and the permission warning. -/
theorem c3_witness :
    action_goto_handle [] c3fs c3st (some ("/nope"))
      = (set_status c3st (("⚠  Not a directory: ") ++ "/nope"), none) ∧
    action_goto_handle [] c3fs c3st (some ("/u/s"))
      = ({ c3st with
            current_dir := ["u", "s"]
            listing := []
            status := ("⚠  Permission denied") }, none) := by
  constructor
  · exact (c3_goto_validation [] c3fs c3st ("/nope") (by decide)).1 (by decide)
  · exact (((c3_goto_validation [] c3fs c3st ("/u/s") (by decide)).2 (by decide)).2 (by decide))

/- ────────────────── Claim C5 ────────────────── -/

/-- C5: paste requires a non-empty clipboard — on an empty one it only sets
a status; and when the computed destination equals the clipboard source it
is rejected with the "same location" status before any filesystem call, so
the filesystem is returned untouched. -/
theorem c5_paste_guards : ∀ (fs : Fs) (st : AppState),
    (st.clipboard = none →
       action_paste_item fs st
         = (fs, set_status st ("⚠  Clipboard is empty. Use [C] to copy first."))) ∧
    (∀ src, st.clipboard = some src → st.current_dir ++ [pathName src] = src →
       action_paste_item fs st
         = (fs, set_status st ("⚠  Source and destination are the same."))) := by
  intro fs st
  constructor
  · intro h
    simp [action_paste_item, h]
  · intro src h hsame
    simp [action_paste_item, h, hsame]

/-- A state whose current directory d is the parent of the copied entry
d/x, so pasting targets the source itself. -/
def c5st : AppState := ⟨["d"], false, some ["d", "x"], ClipOp.copy, [], ("")⟩

/-- C5, witness: the empty-clipboard and same-location guards evaluated
concretely. -/
theorem c5_witness :
    action_paste_item fs0 st0
      = (fs0, set_status st0 ("⚠  Clipboard is empty. Use [C] to copy first.")) ∧
    action_paste_item fs0 c5st
      = (fs0, set_status c5st ("⚠  Source and destination are the same.")) :=
  ⟨(c5_paste_guards fs0 st0).1 rfl,
   (c5_paste_guards fs0 c5st).2 ["d", "x"] rfl (by decide)⟩

/- ────────────────── Claim C4 ────────────────── -/

theorem fsMove_self (fs : Fs) (p : FPath) (fs2 : Fs) :
    fsMove fs p p = Except.ok fs2 → False := by
  intro h
  unfold fsMove fsRename at h
  by_cases hx : fs.exists? p = true
  · rw [if_pos hx, if_pos hx] at h
    exact Except.noConfusion h
  · rw [if_neg hx] at h
    exact Except.noConfusion h

theorem paste_copy_step (fs : Fs) (st : AppState) (src : FPath)
    (hclip : st.clipboard = some src) (hop : st.clipboard_op = ClipOp.copy) :
    (action_paste_item fs st).2.clipboard = some src ∧
    (action_paste_item fs st).2.clipboard_op = ClipOp.copy := by
  simp only [action_paste_item, hclip, hop]
  by_cases hsame : st.current_dir ++ [pathName src] = src
  · rw [if_pos hsame]
    exact ⟨hclip, hop⟩
  · rw [if_neg hsame]
    split
    · split
      · exact ⟨hclip, hop⟩
      · exact ⟨hclip, hop⟩
    · exact ⟨hclip, hop⟩

/-- C4: after a cut whose underlying move succeeds, paste leaves the
clipboard idle; with a copy clipboard holding X, any number of consecutive
pastes (successful or not) leaves the clipboard still holding X with
operation copy. -/
theorem c4_clipboard_after_paste :
    (∀ (fs : Fs) (st : AppState) (src : FPath) (fsm : Fs),
       st.clipboard = some src → st.clipboard_op = ClipOp.cut →
       fsMove fs src (st.current_dir ++ [pathName src]) = Except.ok fsm →
       (action_paste_item fs st).2.clipboard = none) ∧
    (∀ (n : Nat) (fs : Fs) (st : AppState) (src : FPath),
       st.clipboard = some src → st.clipboard_op = ClipOp.copy →
       (pasteSeq n fs st).2.clipboard = some src ∧
       (pasteSeq n fs st).2.clipboard_op = ClipOp.copy) := by
  constructor
  · intro fs st src fsm hclip hop hmove
    have hne : st.current_dir ++ [pathName src] ≠ src := by
      intro he
      rw [he] at hmove
      exact fsMove_self fs src fsm hmove
    simp only [action_paste_item, hclip, hop, if_neg hne, hmove]
    split
    · rfl
    · rfl
  · intro n
    induction n with
    | zero => intro fs st src hclip hop; exact ⟨hclip, hop⟩
    | succ n ih =>
      intro fs st src hclip hop
      have hstep := paste_copy_step fs st src hclip hop
      simp only [pasteSeq]
      exact ih (action_paste_item fs st).1 (action_paste_item fs st).2 src hstep.1 hstep.2

/-- A state in directory d with the file a held in a cut clipboard. -/
def stCutW : AppState := ⟨["d"], false, some ["a"], ClipOp.cut, [], ("")⟩

/-- A state in directory d with the file a held in a copy clipboard. -/
def stCopyW : AppState := ⟨["d"], false, some ["a"], ClipOp.copy, [], ("")⟩

/-- The filesystem fs0 after the file a has been moved into d. -/
def fsMovedW : Fs := ⟨[⟨[], true, true, 0⟩, ⟨["d", "a"], false, true, 5⟩, ⟨["d"], true, true, 0⟩]⟩

/-- C4, witness: a concrete successful cut-paste empties the clipboard, and
two consecutive copy-pastes keep the copy clipboard intact. -/
theorem c4_witness :
    (action_paste_item fs0 stCutW).2.clipboard = none ∧
    (pasteSeq 2 fs0 stCopyW).2.clipboard = some ["a"] ∧
    (pasteSeq 2 fs0 stCopyW).2.clipboard_op = ClipOp.copy :=
  ⟨c4_clipboard_after_paste.1 fs0 stCutW ["a"] fsMovedW rfl rfl rfl,
   (c4_clipboard_after_paste.2 2 fs0 stCopyW ["a"] rfl rfl).1,
   (c4_clipboard_after_paste.2 2 fs0 stCopyW ["a"] rfl rfl).2⟩

/- ────────────────── Claim C10 ────────────────── -/

theorem fsMove_mem {fs : Fs} {src dst : FPath} {fs2 : Fs}
    (h : fsMove fs src dst = Except.ok fs2) :
    ∀ n ∈ fs2.nodes, n ∈ fs.nodes ∨ dst <+: n.path := by
  unfold fsMove fsRename at h
  by_cases hx : fs.exists? src = true
  · rw [if_pos hx] at h
    by_cases hd : fs.exists? dst = true
    · rw [if_pos hd] at h
      exact Except.noConfusion h
    · rw [if_neg hd] at h
      injection h with h2
      subst h2
      intro n hn
      rcases List.mem_map.mp hn with ⟨m, hm, hrb⟩
      unfold rebaseNode at hrb
      by_cases hp : src.isPrefixOf m.path
      · rw [if_pos hp] at hrb
        right
        rw [← hrb]
        exact List.prefix_append dst (m.path.drop src.length)
      · rw [if_neg hp] at hrb
        left
        rw [← hrb]
        exact hm
  · rw [if_neg hx] at h
    exact Except.noConfusion h

theorem fsCopy_mem {fs : Fs} {src dst : FPath} {fs2 : Fs}
    (h : fsCopy fs src dst = Except.ok fs2) :
    ∀ n ∈ fs2.nodes, n ∈ fs.nodes ∨ dst <+: n.path := by
  unfold fsCopy at h
  by_cases hx : fs.exists? src = true
  · rw [if_pos hx] at h
    by_cases hd : fs.isDir? src = true
    · rw [if_pos hd] at h
      by_cases he : fs.exists? dst = true
      · rw [if_pos he] at h
        exact Except.noConfusion h
      · rw [if_neg he] at h
        injection h with h2
        subst h2
        intro n hn
        rcases List.mem_append.mp hn with hn | hn
        · left; exact hn
        · rcases List.mem_map.mp hn with ⟨m, hm, hrb⟩
          right
          rw [← hrb]
          exact List.prefix_append dst (m.path.drop src.length)
    · rw [if_neg hd] at h
      by_cases hdd : fs.isDir? dst = true
      · rw [if_pos hdd] at h
        exact Except.noConfusion h
      · rw [if_neg hdd] at h
        injection h with h2
        subst h2
        intro n hn
        rcases List.mem_append.mp hn with hn | hn
        · left; exact (List.mem_filter.mp hn).1
        · rcases List.mem_map.mp hn with ⟨m, hm, hrb⟩
          right
          rw [← hrb]
  · rw [if_neg hx] at h
    exact Except.noConfusion h

/-- C10: for any paste with a non-empty clipboard holding src, every
filesystem object present afterwards either already existed or lives at (or
below) current_dir joined with src's base name — paste never renames and
never targets any other location. -/
theorem c10_paste_destination : ∀ (fs : Fs) (st : AppState) (src : FPath),
    st.clipboard = some src →
    ∀ n ∈ (action_paste_item fs st).1.nodes,
      n ∈ fs.nodes ∨ (st.current_dir ++ [pathName src]) <+: n.path := by
  intro fs st src hclip
  simp only [action_paste_item, hclip]
  by_cases hsame : st.current_dir ++ [pathName src] = src
  · rw [if_pos hsame]
    intro n hn
    left
    exact hn
  · rw [if_neg hsame]
    intro n hn
    split at hn
    · split at hn
      · rename_i fs2 hmv
        split at hn
        · exact fsMove_mem hmv n hn
        · exact fsMove_mem hmv n hn
      · exact Or.inl hn
    · split at hn
      · rename_i fs2 hcp
        split at hn
        · exact fsCopy_mem hcp n hn
        · exact fsCopy_mem hcp n hn
      · exact Or.inl hn

/-- C10, witness: after a concrete copy-paste of the file a into directory
d, the new node sits exactly at d/a. -/
theorem c10_witness :
    (⟨["d", "a"], false, true, 5⟩ : FsNode) ∈ fs0.nodes ∨
      (stCopyW.current_dir ++ [pathName ["a"]]) <+: (["d", "a"] : FPath) :=
  c10_paste_destination fs0 stCopyW ["a"] rfl ⟨["d", "a"], false, true, 5⟩ (by decide)
